import Mathlib

set_option maxRecDepth 10000

/-
Verification of the screen-light utility (CosmicDNA/screen-light).

Shallow embedding of the program's state machine in Lean 4:
brightness controller (global gray level plus the background-brush
swapping of UpdateBackgroundColor), key dispatch (WndProc WM_KEYDOWN),
the mouse-cursor animator (class MouseMover), the console control
handler (consoleHandler) and the startup/message-loop skeleton of the
entry points (main in src/src/screen_light.cpp and WinMain in
src/unnamed/part_000).  External Win32 calls that can fail
(CreateSolidBrush, RegisterClassEx, CreateWindowEx,
SetConsoleCtrlHandler) are modelled by Boolean oracles; their
observable side effects (brush creation/deletion, repaint requests,
log lines, posted messages) are recorded explicitly.
-/

namespace ScreenLight

/-- The C constant EXIT_FAILURE (value 1), used by both entry points. -/
def EXIT_FAILURE : Int := 1

/-- Embedding of the C++ conversion static_cast<BYTE>(n) applied to an
int n: reduction modulo 256 into the range 0..255. -/
def byteCast (n : Int) : Int := n % 256

/-- Startup value of the global gray level, from the declaration
BYTE g_grayLevel = 255 (0 = black, 255 = white). -/
def initialGrayLevel : Int := 255

/-- The clamping computation at the head of UpdateBackgroundColor
(src/src/screen_light.cpp, lines 101-109): add step when going
lighter, clamping above at 255; subtract step when going darker,
clamping below at 0. -/
def clampGray (grayLevel : Int) (goLighter : Bool) (step : Int) : Int :=
  if goLighter then
    let n := grayLevel + step
    if n > 255 then 255 else n
  else
    let n := grayLevel - step
    if n < 0 then 0 else n

/-- Observable side effects of one UpdateBackgroundColor call: number
of brushes successfully created (CreateSolidBrush), whether a new
brush was swapped into the window class (SetClassLongPtr), whether the
previous brush was released (DeleteObject), whether a repaint was
forced (InvalidateRect) and whether the brightness log line was
emitted (logMessage). -/
structure PaintEffects where
  brushesCreated : Nat
  swappedBrush : Bool
  deletedOldBrush : Bool
  repainted : Bool
  logged : Bool
deriving DecidableEq

/-- Absence of side effects: nothing allocated, swapped, released,
repainted or logged. -/
def noPaintEffects : PaintEffects :=
  { brushesCreated := 0, swappedBrush := false, deletedOldBrush := false,
    repainted := false, logged := false }

/-- Embedding of UpdateBackgroundColor (src/src/screen_light.cpp,
lines 100-129).  The stored gray level is the first component; the
side effects are the second.  brushOk models whether CreateSolidBrush
succeeds, oldBrushPresent whether SetClassLongPtr returns a previous
brush.  Faithful to the source ordering: when the clamped value
differs from the current one, g_grayLevel is overwritten (through the
BYTE cast) before CreateSolidBrush is attempted, so the stored level
changes even when brush creation fails, in which case no swap, no
release, no repaint and no log happen. -/
def UpdateBackgroundColor (grayLevel : Int) (goLighter : Bool) (step : Int)
    (brushOk : Bool) (oldBrushPresent : Bool) : Int × PaintEffects :=
  let newGrayLevel := clampGray grayLevel goLighter step
  if newGrayLevel ≠ grayLevel then
    (byteCast newGrayLevel,
      if brushOk then
        { brushesCreated := 1, swappedBrush := true,
          deletedOldBrush := oldBrushPresent, repainted := true, logged := true }
      else noPaintEffects)
  else
    (grayLevel, noPaintEffects)

/-- Step size computed in the WM_KEYDOWN branch of WndProc
(src/src/screen_light.cpp, line 277): 1 when Shift is held, 10
otherwise. -/
def stepFor (shiftHeld : Bool) : Int := if shiftHeld then 1 else 10

/-- Keys distinguished by the WM_KEYDOWN dispatch (VK_ESCAPE, VK_UP,
VK_DOWN), the M key described by the spec and README, and any other
key. -/
inductive Key where
  | escape
  | up
  | down
  | mKey
  | otherKey
deriving DecidableEq

/-- One Up or Down brightness key press as dispatched by WndProc:
direction (Up = lighter), whether Shift was held, and whether the
CreateSolidBrush call inside the resulting UpdateBackgroundColor
succeeds. -/
structure Press where
  lighter : Bool
  shiftHeld : Bool
  brushOk : Bool
deriving DecidableEq

/-- Gray level resulting from one press (the window class always holds
a previous background brush, see wc.hbrBackground at startup). -/
def applyPress (grayLevel : Int) (p : Press) : Int :=
  (UpdateBackgroundColor grayLevel p.lighter (stepFor p.shiftHeld) p.brushOk true).1

/-- Gray level after a sequence of Up/Down presses. -/
def runPresses (grayLevel : Int) (ps : List Press) : Int :=
  ps.foldl applyPress grayLevel

/-- Gray level after n coarse (no Shift) Up presses starting from
level 0, with brush creation succeeding. -/
def coarseUpFromZero (n : Nat) : Int :=
  runPresses 0 (List.replicate n { lighter := true, shiftHeld := false, brushOk := true })

/-- State of class MouseMover (src/src/screen_light.cpp, lines 62-94):
screen metrics queried at construction, current cursor position (x, y)
and velocity (dx, dy). -/
structure MouseMover where
  screenWidth : Int
  screenHeight : Int
  x : Int
  y : Int
  dx : Int
  dy : Int
deriving DecidableEq

/-- Configuration constants from namespace config in the source:
kInitialX = 100, kInitialY = 100, kVelocity = 2. -/
def kInitialX : Int := 100

/-- Initial y coordinate, config::kInitialY. -/
def kInitialY : Int := 100

/-- Velocity magnitude, config::kVelocity. -/
def kVelocity : Int := 2

/-- The MouseMover constructor: screen metrics from GetSystemMetrics,
position (100, 100), velocity (+2, +2). -/
def MouseMover.start (w h : Int) : MouseMover :=
  { screenWidth := w, screenHeight := h,
    x := kInitialX, y := kInitialY, dx := kVelocity, dy := kVelocity }

/-- Embedding of MouseMover::update (src/src/screen_light.cpp, lines
75-90).  The second component records the coordinates passed to
SetCursorPos, which is called first with the current (x, y); then the
coordinates are advanced by the velocity, and each velocity component
is reversed exactly when its advanced coordinate is ≤ 0 or ≥ the
corresponding screen extent minus 1. -/
def MouseMover.update (m : MouseMover) : MouseMover × (Int × Int) :=
  ({ screenWidth := m.screenWidth, screenHeight := m.screenHeight,
     x := m.x + m.dx, y := m.y + m.dy,
     dx := if m.x + m.dx ≤ 0 ∨ m.x + m.dx ≥ m.screenWidth - 1 then -m.dx else m.dx,
     dy := if m.y + m.dy ≤ 0 ∨ m.y + m.dy ≥ m.screenHeight - 1 then -m.dy else m.dy },
   (m.x, m.y))

/-- State after n ticks of MouseMover::update. -/
def MouseMover.iter (m : MouseMover) : Nat → MouseMover
  | 0 => m
  | n + 1 => ((MouseMover.iter m n).update).1

/-- Advanced x coordinate computed during tick n (x += dx) when the
mover runs from its constructed state on a w × h screen. -/
def advancedX (w h : Int) (n : Nat) : Int :=
  ((MouseMover.start w h).iter n).x + ((MouseMover.start w h).iter n).dx

/-- Inductive invariant of the mover's x/y dynamics on a w × h screen
(w, h ≥ 102): velocity components stay in plus or minus 2, coordinates
stay even and within [0, w] and [0, h], and a coordinate at its
extreme has the velocity pointing back inside. -/
def GoodState (w h : Int) (m : MouseMover) : Prop :=
  m.screenWidth = w ∧ m.screenHeight = h ∧
  (m.dx = 2 ∨ m.dx = -2) ∧ (m.dy = 2 ∨ m.dy = -2) ∧
  2 ∣ m.x ∧ 2 ∣ m.y ∧
  0 ≤ m.x ∧ m.x ≤ w ∧ 0 ≤ m.y ∧ m.y ≤ h ∧
  (m.dx = 2 → m.x ≤ w - 2) ∧ (m.dx = -2 → 2 ≤ m.x) ∧
  (m.dy = 2 → m.y ≤ h - 2) ∧ (m.dy = -2 → 2 ≤ m.y)

/-- Modelled from the spec: the Mouse Animator's enabled flag,
toggle() and cursor-visibility synchronization are described by the
spec (sections 4.3 and 4.4: key M invokes toggle(); the cursor is
hidden while the animator is enabled and visible when disabled;
update() does nothing while disabled) and by the repository README
("Press M to toggle the mouse cursor movement on and off"), but none
of the sources under src/ implement an M-key branch, an enabled flag
or a toggle operation; only the bare MouseMover exists there. -/
structure MouseAnimator where
  mover : MouseMover
  enabled : Bool
  cursorVisible : Bool
deriving DecidableEq

/-- Modelled from the spec: animator start state — enabled by default,
cursor hidden while enabled. -/
def MouseAnimator.start (w h : Int) : MouseAnimator :=
  { mover := MouseMover.start w h, enabled := true, cursorVisible := false }

/-- Modelled from the spec: toggle() flips the enabled flag and
synchronizes cursor visibility, making the cursor visible exactly when
the animator ends up disabled. -/
def MouseAnimator.toggle (a : MouseAnimator) : MouseAnimator :=
  { mover := a.mover, enabled := !a.enabled, cursorVisible := a.enabled }

/-- Modelled from the spec: per-tick update of the animator; while the
enabled flag is false it does nothing (no state change, no cursor
move), otherwise it performs one MouseMover update. -/
def MouseAnimator.tick (a : MouseAnimator) : MouseAnimator × Option (Int × Int) :=
  if a.enabled then
    ({ mover := (a.mover.update).1, enabled := a.enabled,
       cursorVisible := a.cursorVisible },
     some (a.mover.update).2)
  else (a, none)

/-- Modelled from the spec: the Input Handler maps the M key to
toggle(); keys without an animator action leave it unchanged. -/
def MouseAnimator.handleKey (a : MouseAnimator) (k : Key) : MouseAnimator :=
  if k = Key.mKey then a.toggle else a

/-- Console control event kinds relevant to consoleHandler: the three
handled kinds (CTRL_C_EVENT, CTRL_BREAK_EVENT, CTRL_CLOSE_EVENT) and
the remaining kinds (logoff/shutdown events), which fall through. -/
inductive CtrlType where
  | ctrlC
  | ctrlBreak
  | ctrlClose
  | ctrlLogoff
  | ctrlShutdownEvent
deriving DecidableEq

/-- Observable actions of the console handler: a logMessage call, a
PostMessage of the WM_APP_SHUTDOWN notification to the main window,
or a blocking sleep of the given number of milliseconds. -/
inductive HandlerEffect where
  | logLine
  | postShutdownMessage
  | sleep (ms : Nat)
deriving DecidableEq

/-- Predicate picking out blocking sleep effects. -/
def isSleepEffect : HandlerEffect → Bool
  | HandlerEffect.sleep _ => true
  | _ => false

/-- Embedding of consoleHandler (src/src/screen_light.cpp, lines
36-52).  hMainWnd models whether the global g_hMainWnd is non-null.
For the three handled control types it logs, posts WM_APP_SHUTDOWN to
the main window when the handle is set, and returns TRUE; for every
other control type it does nothing and returns FALSE.  The source
contains no sleep or wait call, so no sleep effect ever appears. -/
def consoleHandler (ctrlType : CtrlType) (hMainWnd : Bool) :
    List HandlerEffect × Bool :=
  match ctrlType with
  | CtrlType.ctrlC | CtrlType.ctrlBreak | CtrlType.ctrlClose =>
    (HandlerEffect.logLine ::
       (if hMainWnd then [HandlerEffect.postShutdownMessage] else []),
     true)
  | _ => ([], false)

/-- Messages drained by the entry-point message loops: WM_QUIT with
its wParam exit code, keyboard input, the custom WM_APP_SHUTDOWN,
WM_CLOSE, and everything else. -/
inductive WinMsg where
  | quit (code : Int)
  | keyDown (key : Key) (shiftHeld : Bool)
  | appShutdown
  | close
  | otherMsg
deriving DecidableEq

/-- Exit code observed by the message loop: the wParam of the first
WM_QUIT in the queue; none when no WM_QUIT ever arrives (the loop
keeps running). -/
def messageLoopExit : List WinMsg → Option Int
  | [] => none
  | WinMsg.quit c :: _ => some c
  | _ :: rest => messageLoopExit rest

/-- Success/failure oracles for the fallible startup calls:
SetConsoleCtrlHandler, the initial CreateSolidBrush, RegisterClassEx
and CreateWindowEx. -/
structure StartupEnv where
  ctrlHandlerOk : Bool
  initialBrushOk : Bool
  registerClassOk : Bool
  createWindowOk : Bool
deriving DecidableEq

/-- Outcome of running an entry point: the returned process exit code
(none when the message loop never terminates), whether the message
loop was entered, whether a user-visible error box was shown, and
whether the non-fatal control-handler warning was logged. -/
structure MainOutcome where
  exitCode : Option Int
  enteredLoop : Bool
  errorBoxShown : Bool
  ctrlWarningLogged : Bool
deriving DecidableEq

/-- Embedding of the startup and loop skeleton of main
(src/src/screen_light.cpp, lines 164-254).  SetConsoleCtrlHandler
failure only logs a warning; failure of the initial CreateSolidBrush,
RegisterClassEx or CreateWindowEx shows an error box and returns
EXIT_FAILURE before the loop; otherwise the loop runs and the process
returns the wParam of the WM_QUIT it observes. -/
def mainEntry (env : StartupEnv) (msgs : List WinMsg) : MainOutcome :=
  let warned := !env.ctrlHandlerOk
  if !env.initialBrushOk then
    { exitCode := some EXIT_FAILURE, enteredLoop := false,
      errorBoxShown := true, ctrlWarningLogged := warned }
  else if !env.registerClassOk then
    { exitCode := some EXIT_FAILURE, enteredLoop := false,
      errorBoxShown := true, ctrlWarningLogged := warned }
  else if !env.createWindowOk then
    { exitCode := some EXIT_FAILURE, enteredLoop := false,
      errorBoxShown := true, ctrlWarningLogged := warned }
  else
    { exitCode := messageLoopExit msgs, enteredLoop := true,
      errorBoxShown := false, ctrlWarningLogged := warned }

/-- Embedding of the startup and loop skeleton of WinMain
(src/unnamed/part_000, lines 165-258; likewise the WinMain variant at
src/src/screen_light.cpp lines 421-432 of the concatenated file).
There a SetConsoleCtrlHandler failure is fatal: it shows an error box
and returns EXIT_FAILURE before anything else is initialized. -/
def winMainEntry (env : StartupEnv) (msgs : List WinMsg) : MainOutcome :=
  if !env.ctrlHandlerOk then
    { exitCode := some EXIT_FAILURE, enteredLoop := false,
      errorBoxShown := true, ctrlWarningLogged := false }
  else if !env.initialBrushOk then
    { exitCode := some EXIT_FAILURE, enteredLoop := false,
      errorBoxShown := true, ctrlWarningLogged := false }
  else if !env.registerClassOk then
    { exitCode := some EXIT_FAILURE, enteredLoop := false,
      errorBoxShown := true, ctrlWarningLogged := false }
  else if !env.createWindowOk then
    { exitCode := some EXIT_FAILURE, enteredLoop := false,
      errorBoxShown := true, ctrlWarningLogged := false }
  else
    { exitCode := messageLoopExit msgs, enteredLoop := true,
      errorBoxShown := false, ctrlWarningLogged := false }

/-! Helper lemmas. -/

theorem clampGray_range (g : Int) (l : Bool) (step : Int)
    (h0 : 0 ≤ g) (h255 : g ≤ 255) (hs : 0 ≤ step) :
    0 ≤ clampGray g l step ∧ clampGray g l step ≤ 255 := by
  cases l <;> dsimp only [clampGray] <;> split_ifs <;> omega

theorem UpdateBackgroundColor_fst (g : Int) (l : Bool) (step : Int) (b old : Bool) :
    (UpdateBackgroundColor g l step b old).1 =
      if clampGray g l step ≠ g then byteCast (clampGray g l step) else g := by
  simp only [UpdateBackgroundColor]
  split_ifs <;> rfl

theorem UpdateBackgroundColor_range (g : Int) (l : Bool) (step : Int) (b old : Bool)
    (h0 : 0 ≤ g) (h255 : g ≤ 255) :
    0 ≤ (UpdateBackgroundColor g l step b old).1 ∧
      (UpdateBackgroundColor g l step b old).1 ≤ 255 := by
  rw [UpdateBackgroundColor_fst]
  split_ifs with h
  · unfold byteCast
    omega
  · exact ⟨h0, h255⟩

theorem UpdateBackgroundColor_clamps (g : Int) (l : Bool) (step : Int) (b old : Bool)
    (h0 : 0 ≤ g) (h255 : g ≤ 255) (hs : 0 ≤ step) :
    (UpdateBackgroundColor g l step b old).1 = clampGray g l step := by
  have hr := clampGray_range g l step h0 h255 hs
  rw [UpdateBackgroundColor_fst]
  split_ifs with h
  · unfold byteCast
    omega
  · omega

theorem runPresses_range : ∀ (ps : List Press) (g : Int), 0 ≤ g → g ≤ 255 →
    0 ≤ runPresses g ps ∧ runPresses g ps ≤ 255 := by
  intro ps
  induction ps with
  | nil => intro g h0 h1; simpa [runPresses] using ⟨h0, h1⟩
  | cons p rest ih =>
    intro g h0 h1
    have h := UpdateBackgroundColor_range g p.lighter (stepFor p.shiftHeld) p.brushOk true h0 h1
    simpa [runPresses, applyPress, List.foldl_cons] using ih _ h.1 h.2

theorem clampGray_up_min (g step : Int) :
    clampGray g true step = min (g + step) 255 := by
  simp only [clampGray, if_true]
  split_ifs <;> omega

theorem clampGray_down_max (g step : Int) :
    clampGray g false step = max (g - step) 0 := by
  simp only [clampGray, Bool.false_eq_true, if_false]
  split_ifs <;> omega

theorem stepFor_nonneg (shiftHeld : Bool) : 0 ≤ stepFor shiftHeld := by
  cases shiftHeld <;> decide

theorem coarseUpFromZero_succ (n : Nat) :
    coarseUpFromZero (n + 1) =
      applyPress (coarseUpFromZero n)
        { lighter := true, shiftHeld := false, brushOk := true } := by
  simp only [coarseUpFromZero, runPresses, List.replicate_succ',
    List.foldl_append, List.foldl_cons, List.foldl_nil]

theorem coarseUpFromZero_stuck : ∀ n : Nat, 26 ≤ n → coarseUpFromZero n = 255 := by
  intro n
  induction n with
  | zero => omega
  | succ k ih =>
    intro h
    rcases Nat.lt_or_ge k 26 with hk | hk
    · have hx : k = 25 := by omega
      subst hx
      decide
    · rw [coarseUpFromZero_succ, ih hk]
      decide

theorem iter_succ (m : MouseMover) (n : Nat) :
    m.iter (n + 1) = ((m.iter n).update).1 := rfl

theorem update_fst_x (m : MouseMover) : (m.update).1.x = m.x + m.dx := rfl

theorem update_fst_dx (m : MouseMover) :
    (m.update).1.dx =
      if m.x + m.dx ≤ 0 ∨ m.x + m.dx ≥ m.screenWidth - 1 then -m.dx else m.dx := rfl

theorem update_fst_dy (m : MouseMover) :
    (m.update).1.dy =
      if m.y + m.dy ≤ 0 ∨ m.y + m.dy ≥ m.screenHeight - 1 then -m.dy else m.dy := rfl

theorem update_fst_screenWidth (m : MouseMover) :
    (m.update).1.screenWidth = m.screenWidth := rfl

theorem iter_screenWidth (w h : Int) : ∀ n : Nat,
    ((MouseMover.start w h).iter n).screenWidth = w := by
  intro n
  induction n with
  | zero => rfl
  | succ k ih => rw [iter_succ, update_fst_screenWidth, ih]

theorem iter_velocity (w h : Int) : ∀ n : Nat,
    (((MouseMover.start w h).iter n).dx = 2 ∨ ((MouseMover.start w h).iter n).dx = -2) ∧
    (((MouseMover.start w h).iter n).dy = 2 ∨ ((MouseMover.start w h).iter n).dy = -2) := by
  intro n
  induction n with
  | zero => exact ⟨Or.inl rfl, Or.inl rfl⟩
  | succ k ih =>
    obtain ⟨hdx, hdy⟩ := ih
    constructor
    · rw [iter_succ, update_fst_dx]
      rcases hdx with hv | hv <;> rw [hv] <;> split_ifs <;> omega
    · rw [iter_succ, update_fst_dy]
      rcases hdy with hv | hv <;> rw [hv] <;> split_ifs <;> omega

theorem iter_no_bounce (w h : Int) : ∀ n : Nat,
    (∀ m : Nat, m < n → advancedX w h m < w - 1) →
    ((MouseMover.start w h).iter n).dx = 2 ∧
    ((MouseMover.start w h).iter n).x = 100 + 2 * (n : Int) := by
  intro n
  induction n with
  | zero => intro _; exact ⟨rfl, by norm_num [MouseMover.iter, MouseMover.start, kInitialX]⟩
  | succ k ih =>
    intro hpre
    have ihk := ih (fun m hm => hpre m (Nat.lt_succ_of_lt hm))
    have hadv : advancedX w h k < w - 1 := hpre k (Nat.lt_succ_self k)
    rw [advancedX, ihk.1, ihk.2] at hadv
    have hcond : ¬(100 + 2 * (k : Int) + 2 ≤ 0 ∨
        100 + 2 * (k : Int) + 2 ≥ w - 1) := by omega
    constructor
    · rw [iter_succ, update_fst_dx, ihk.1, ihk.2, iter_screenWidth, if_neg hcond]
    · rw [iter_succ, update_fst_x, ihk.1, ihk.2]
      push_cast
      ring

theorem goodState_start (w h : Int) (hw : 102 ≤ w) (hh : 102 ≤ h) :
    GoodState w h (MouseMover.start w h) := by
  dsimp only [GoodState, MouseMover.start, kInitialX, kInitialY, kVelocity]
  omega

theorem goodState_update (w h : Int) (hw : 102 ≤ w) (hh : 102 ≤ h)
    (m : MouseMover) (hm : GoodState w h m) : GoodState w h (m.update).1 := by
  obtain ⟨hsw, hsh, hdx, hdy, hx2, hy2, hx0, hxw, hy0, hyh, hdxw, hdx0, hdyh, hdy0⟩ := hm
  subst hsw
  subst hsh
  dsimp only [GoodState, MouseMover.update]
  rcases hdx with hvx | hvx <;> rcases hdy with hvy | hvy <;>
    rw [hvx, hvy] <;> split_ifs <;>
      (try simp only [false_or, or_false, false_implies, true_implies,
        and_true, true_and, eq_self_iff_true]) <;>
      omega

/-! Claim theorems. -/

/-- C1: for every sequence of Up/Down key presses the stored gray
level remains an integer in [0, 255]; the value at startup is 255; the
level after any single adjust call from an in-range level stays in
range for an arbitrary step; and for the nonnegative steps the program
uses, every transition is exactly the clamp of the old level. -/
theorem grayLevel_invariant :
    initialGrayLevel = 255 ∧
    (∀ ps : List Press,
      0 ≤ runPresses initialGrayLevel ps ∧ runPresses initialGrayLevel ps ≤ 255) ∧
    (∀ (g : Int) (l : Bool) (step : Int) (b old : Bool), 0 ≤ g → g ≤ 255 →
      0 ≤ (UpdateBackgroundColor g l step b old).1 ∧
        (UpdateBackgroundColor g l step b old).1 ≤ 255) ∧
    (∀ (g : Int) (l : Bool) (step : Int) (b old : Bool),
      0 ≤ g → g ≤ 255 → 0 ≤ step →
      (UpdateBackgroundColor g l step b old).1 = clampGray g l step) := by
  refine ⟨rfl, ?_, ?_, ?_⟩
  · intro ps
    exact runPresses_range ps initialGrayLevel (by decide) (by decide)
  · intro g l step b old h0 h255
    exact UpdateBackgroundColor_range g l step b old h0 h255
  · intro g l step b old h0 h255 hs
    exact UpdateBackgroundColor_clamps g l step b old h0 h255 hs

/-- Witness for C1 at concrete inputs: one coarse Up press from the
startup level, and an adjust at level 250 with step 10. -/
theorem grayLevel_invariant_witness :
    (0 ≤ runPresses initialGrayLevel
        [{ lighter := true, shiftHeld := false, brushOk := true }] ∧
      runPresses initialGrayLevel
        [{ lighter := true, shiftHeld := false, brushOk := true }] ≤ 255) ∧
    (UpdateBackgroundColor 250 true 10 true true).1 = clampGray 250 true 10 := by
  refine ⟨grayLevel_invariant.2.1 _, ?_⟩
  exact grayLevel_invariant.2.2.2 250 true 10 true true (by decide) (by decide) (by decide)

/-- C2: when the clamped result of an adjust request equals the
current gray level, the call is a no-op — the stored level is
unchanged and no brush is created, swapped or released, no repaint is
forced and nothing is logged. -/
theorem adjust_noop_when_clamped_equal (g : Int) (l : Bool) (step : Int) (b old : Bool)
    (h : clampGray g l step = g) :
    UpdateBackgroundColor g l step b old = (g, noPaintEffects) := by
  simp [UpdateBackgroundColor, h]

/-- Witness for C2: pressing Up (coarse step 10) at level 255 clamps
back to 255 and the call is a no-op. -/
theorem adjust_noop_witness :
    clampGray 255 true 10 = 255 ∧
    UpdateBackgroundColor 255 true 10 true true = (255, noPaintEffects) :=
  ⟨by decide, adjust_noop_when_clamped_equal 255 true 10 true true (by decide)⟩

/-- C10: when an adjust request computes a clamped level different
from the current one and the CreateSolidBrush call fails, the call
returns with the stored level already changed to the clamped value but
with no brush created, no swap, no release of the old brush, no
repaint and no log line — the adjustment is not atomic with respect to
allocation failure. -/
theorem adjust_not_atomic (g : Int) (l : Bool) (step : Int) (old : Bool)
    (h : clampGray g l step ≠ g) :
    UpdateBackgroundColor g l step false old =
      (byteCast (clampGray g l step), noPaintEffects) ∧
    (0 ≤ g → g ≤ 255 → 0 ≤ step →
      (UpdateBackgroundColor g l step false old).1 ≠ g) := by
  constructor
  · simp [UpdateBackgroundColor, h]
  · intro h0 h255 hs
    rw [UpdateBackgroundColor_clamps g l step false old h0 h255 hs]
    exact h

/-- Witness for C10: a coarse Down press at level 255 with a failing
brush allocation records level 245 yet produces no side effects. -/
theorem adjust_not_atomic_witness :
    UpdateBackgroundColor 255 false 10 false true =
      (byteCast (clampGray 255 false 10), noPaintEffects) ∧
    (UpdateBackgroundColor 255 false 10 false true).1 ≠ 255 := by
  have h := adjust_not_atomic 255 false 10 true (by decide)
  exact ⟨h.1, h.2 (by decide) (by decide) (by decide)⟩

/-- C3: for every Up/Down key-down event the step is 1 when Shift is
held and 10 otherwise, and from an in-range level an Up press moves
the level to min(level + step, 255) and a Down press to
max(level - step, 0) — a change of exactly the step unless clamped.
In particular, coarse Up presses from level 0 reach 250 after 25
presses; press 26 computes 250 + 10 = 260 and clamps it to 255; and
every press from 27 on (any press at a level that has reached 255) is
a no-op. -/
theorem step_rule :
    (∀ shiftHeld, stepFor shiftHeld = if shiftHeld then 1 else 10) ∧
    (∀ (g : Int) (shiftHeld b old : Bool), 0 ≤ g → g ≤ 255 →
      (UpdateBackgroundColor g true (stepFor shiftHeld) b old).1 =
          min (g + stepFor shiftHeld) 255 ∧
        (UpdateBackgroundColor g false (stepFor shiftHeld) b old).1 =
          max (g - stepFor shiftHeld) 0) ∧
    coarseUpFromZero 25 = 250 ∧
    ((250 : Int) + 10 = 260 ∧ clampGray 250 true 10 = 255 ∧
      coarseUpFromZero 26 = 255) ∧
    (∀ n : Nat, 26 ≤ n → coarseUpFromZero n = 255 ∧
      UpdateBackgroundColor (coarseUpFromZero n) true 10 true true =
        (coarseUpFromZero n, noPaintEffects)) := by
  refine ⟨fun s => rfl, ?_, by decide, ⟨by decide, by decide, by decide⟩, ?_⟩
  · intro g shiftHeld b old h0 h255
    have hs := stepFor_nonneg shiftHeld
    constructor
    · rw [UpdateBackgroundColor_clamps g true (stepFor shiftHeld) b old h0 h255 hs]
      exact clampGray_up_min g (stepFor shiftHeld)
    · rw [UpdateBackgroundColor_clamps g false (stepFor shiftHeld) b old h0 h255 hs]
      exact clampGray_down_max g (stepFor shiftHeld)
  · intro n hn
    have h := coarseUpFromZero_stuck n hn
    rw [h]
    exact ⟨rfl, by decide⟩

/-- Witness for C3 at concrete inputs: a coarse Up press at level 100
and the stuck level after 30 coarse presses. -/
theorem step_rule_witness :
    (UpdateBackgroundColor 100 true (stepFor false) true true).1 =
      min ((100 : Int) + stepFor false) 255 ∧
    coarseUpFromZero 30 = 255 := by
  refine ⟨(step_rule.2.1 100 false true true (by decide) (by decide)).1, ?_⟩
  exact (step_rule.2.2.2.2 30 (by decide)).1

/-- C4: every tick first issues the cursor move to the entry (x, y),
then advances x by dx and y by dy, and reverses each velocity
component exactly when its advanced coordinate is ≤ 0 or ≥ the screen
extent minus 1; from the constructed state ((100, 100), velocity
(+2, +2)) both velocity components stay in plus or minus 2 forever,
and after the first tick whose advanced x is ≥ screenWidth − 1 the
horizontal velocity is −2 at the entry of the next tick. -/
theorem mouse_update_spec :
    (∀ m : MouseMover, (m.update).2 = (m.x, m.y)) ∧
    (∀ m : MouseMover, (m.update).1.x = m.x + m.dx ∧ (m.update).1.y = m.y + m.dy) ∧
    (∀ m : MouseMover,
      (m.update).1.dx =
        (if m.x + m.dx ≤ 0 ∨ m.x + m.dx ≥ m.screenWidth - 1 then -m.dx else m.dx) ∧
      (m.update).1.dy =
        (if m.y + m.dy ≤ 0 ∨ m.y + m.dy ≥ m.screenHeight - 1 then -m.dy else m.dy)) ∧
    (∀ (w h : Int) (n : Nat),
      (((MouseMover.start w h).iter n).dx = 2 ∨
        ((MouseMover.start w h).iter n).dx = -2) ∧
      (((MouseMover.start w h).iter n).dy = 2 ∨
        ((MouseMover.start w h).iter n).dy = -2)) ∧
    (∀ (w h : Int) (n : Nat),
      (∀ m : Nat, m < n → advancedX w h m < w - 1) →
      advancedX w h n ≥ w - 1 →
      ((MouseMover.start w h).iter (n + 1)).dx = -2) := by
  refine ⟨fun m => rfl, fun m => ⟨rfl, rfl⟩, fun m => ⟨rfl, rfl⟩,
    fun w h n => iter_velocity w h n, ?_⟩
  intro w h n hpre hbounce
  have hk := iter_no_bounce w h n hpre
  rw [advancedX, hk.1, hk.2] at hbounce
  rw [iter_succ, update_fst_dx, hk.1, hk.2, iter_screenWidth,
    if_pos (Or.inr hbounce)]

/-- Witness for C4 on a concrete 110 × 110 screen: tick 4 is the first
whose advanced x (= 110) reaches screenWidth − 1 = 109, and dx is −2
at the entry of tick 5. -/
theorem mouse_update_spec_witness :
    advancedX 110 110 4 ≥ 110 - 1 ∧ ((MouseMover.start 110 110).iter 5).dx = -2 := by
  refine ⟨by decide, ?_⟩
  exact mouse_update_spec.2.2.2.2 110 110 4 (by decide) (by decide)

/-- C9 counterexample: on a 150 × 150 screen the mover started at
(100, 100) with velocity (+2, +2) stores x = 150 after 25 ticks, so x
leaves the claimed interval [0, screenWidth − 1] = [0, 149] (the next
tick's SetCursorPos is issued at x = 150). -/
theorem mouse_position_leaves_interval :
    ((MouseMover.start 150 150).iter 25).x = 150 ∧
    ¬(((MouseMover.start 150 150).iter 25).x ≤ 150 - 1) := by decide

/-- C9 amended: on a screen with width and height at least 102, every
state reachable from the constructed mover keeps x in [0, screenWidth]
and y in [0, screenHeight] — the position can overshoot the last pixel
index by at most one, briefly sitting at the exact screen extent
before the reversed velocity pulls it back. -/
theorem mouse_position_bounded (w h : Int) (hw : 102 ≤ w) (hh : 102 ≤ h) (n : Nat) :
    0 ≤ ((MouseMover.start w h).iter n).x ∧ ((MouseMover.start w h).iter n).x ≤ w ∧
    0 ≤ ((MouseMover.start w h).iter n).y ∧ ((MouseMover.start w h).iter n).y ≤ h := by
  have hg : GoodState w h ((MouseMover.start w h).iter n) := by
    induction n with
    | zero => exact goodState_start w h hw hh
    | succ k ih => exact goodState_update w h hw hh _ ih
  obtain ⟨-, -, -, -, -, -, hx0, hxw, hy0, hyh, -, -, -, -⟩ := hg
  exact ⟨hx0, hxw, hy0, hyh⟩

/-- Witness for the amended C9 on a concrete 150 × 150 screen after 25
ticks. -/
theorem mouse_position_bounded_witness :
    (102 : Int) ≤ 150 ∧
    (0 ≤ ((MouseMover.start 150 150).iter 25).x ∧
      ((MouseMover.start 150 150).iter 25).x ≤ 150 ∧
      0 ≤ ((MouseMover.start 150 150).iter 25).y ∧
      ((MouseMover.start 150 150).iter 25).y ≤ 150) :=
  ⟨by decide, mouse_position_bounded 150 150 (by decide) (by decide) 25⟩

/-- C5 (modelled from the spec, feature absent from src/): the M key
invokes toggle(); toggle() flips the enabled flag (true by default at
start, cursor hidden) and synchronizes cursor visibility so the cursor
is visible exactly when the animator ends up disabled; toggle() twice
restores the original enabled state unconditionally and the original
cursor visibility for every state whose visibility is in sync with its
flag (all reachable states are); and while the flag is false, a tick
does nothing. -/
theorem mouse_toggle_spec :
    (∀ a : MouseAnimator, a.handleKey Key.mKey = a.toggle) ∧
    (∀ w h : Int, (MouseAnimator.start w h).enabled = true ∧
      (MouseAnimator.start w h).cursorVisible = false) ∧
    (∀ a : MouseAnimator,
      (a.toggle).enabled = !a.enabled ∧ (a.toggle).cursorVisible = a.enabled) ∧
    (∀ a : MouseAnimator, (a.toggle).toggle.enabled = a.enabled) ∧
    (∀ a : MouseAnimator, a.cursorVisible = !a.enabled → (a.toggle).toggle = a) ∧
    (∀ a : MouseAnimator, a.enabled = false → a.tick = (a, none)) := by
  refine ⟨fun a => rfl, fun w h => ⟨rfl, rfl⟩, fun a => ⟨rfl, rfl⟩, ?_, ?_, ?_⟩
  · intro a
    simp [MouseAnimator.toggle]
  · intro a hsync
    cases a with
    | mk mover enabled cursorVisible =>
      simp only [MouseAnimator.toggle, Bool.not_not]
      simp only at hsync
      rw [hsync]
  · intro a hoff
    simp [MouseAnimator.tick, hoff]

/-- Witness for C5: default animator on a 150 × 150 screen — toggling
twice restores it, and a disabled animator ignores ticks. -/
theorem mouse_toggle_spec_witness :
    (MouseAnimator.start 150 150).cursorVisible = !(MouseAnimator.start 150 150).enabled ∧
    ((MouseAnimator.start 150 150).toggle).toggle = MouseAnimator.start 150 150 ∧
    ((MouseAnimator.start 150 150).toggle).tick =
      ((MouseAnimator.start 150 150).toggle, none) := by
  refine ⟨rfl, mouse_toggle_spec.2.2.2.2.1 _ rfl, mouse_toggle_spec.2.2.2.2.2 _ rfl⟩

/-- C6 counterexample: at a concrete handled signal (Ctrl+C with the
main-window handle set), the console handler's effect trace contains
no blocking sleep at all — it returns immediately after logging and
posting, contradicting the claimed wait on the order of one second. -/
theorem consoleHandler_does_not_block :
    (consoleHandler CtrlType.ctrlC true).1.any isSleepEffect = false ∧
    (consoleHandler CtrlType.ctrlC true).2 = true := by decide

/-- C6 amended: for each handled termination signal (Ctrl+C, Break,
console close), the handler logs the event, posts the graceful
shutdown notification into the window's queue exactly when the main
window handle is set, and returns TRUE (handled, suppressing default
OS termination) immediately, with no blocking wait before returning. -/
theorem consoleHandler_spec (ctrlType : CtrlType) (hMainWnd : Bool)
    (h : ctrlType = CtrlType.ctrlC ∨ ctrlType = CtrlType.ctrlBreak ∨
      ctrlType = CtrlType.ctrlClose) :
    (consoleHandler ctrlType hMainWnd).1 =
      HandlerEffect.logLine ::
        (if hMainWnd then [HandlerEffect.postShutdownMessage] else []) ∧
    (consoleHandler ctrlType hMainWnd).2 = true ∧
    (consoleHandler ctrlType hMainWnd).1.any isSleepEffect = false := by
  rcases h with h | h | h <;> subst h <;> cases hMainWnd <;>
    refine ⟨rfl, rfl, by decide⟩

/-- Witness for the amended C6: a Ctrl+Break signal with the window
handle set. -/
theorem consoleHandler_spec_witness :
    (consoleHandler CtrlType.ctrlBreak true).1 =
      HandlerEffect.logLine :: [HandlerEffect.postShutdownMessage] ∧
    (consoleHandler CtrlType.ctrlBreak true).2 = true :=
  ⟨(consoleHandler_spec CtrlType.ctrlBreak true (Or.inr (Or.inl rfl))).1,
    (consoleHandler_spec CtrlType.ctrlBreak true (Or.inr (Or.inl rfl))).2.1⟩

/-- C7: if the initial brush allocation, class registration or window
creation fails, main shows a user-visible error and returns the
non-zero code EXIT_FAILURE without entering the message loop; when all
three succeed, the loop runs and the process exit code is the wParam
carried by the first WM_QUIT the loop observes. -/
theorem startup_failure_spec (env : StartupEnv) (msgs : List WinMsg) :
    EXIT_FAILURE ≠ 0 ∧
    ((env.initialBrushOk = false ∨ env.registerClassOk = false ∨
        env.createWindowOk = false) →
      (mainEntry env msgs).exitCode = some EXIT_FAILURE ∧
      (mainEntry env msgs).enteredLoop = false ∧
      (mainEntry env msgs).errorBoxShown = true) ∧
    (env.initialBrushOk = true → env.registerClassOk = true →
      env.createWindowOk = true →
      (mainEntry env msgs).exitCode = messageLoopExit msgs ∧
      (mainEntry env msgs).enteredLoop = true) ∧
    (∀ (c : Int) (rest : List WinMsg),
      messageLoopExit (WinMsg.quit c :: rest) = some c) := by
  obtain ⟨ch, b, r, c⟩ := env
  refine ⟨by decide, ?_, ?_, fun c rest => rfl⟩ <;>
    cases b <;> cases r <;> cases c <;> simp [mainEntry]

/-- Witness for C7: a failing window creation aborts with
EXIT_FAILURE, and a successful startup exits with the code of the
queued WM_QUIT (7). -/
theorem startup_failure_spec_witness :
    (mainEntry ⟨true, true, true, false⟩ []).exitCode = some EXIT_FAILURE ∧
    (mainEntry ⟨true, true, true, true⟩
      [WinMsg.otherMsg, WinMsg.quit 7]).exitCode = some 7 := by
  constructor
  · exact ((startup_failure_spec _ []).2.1 (Or.inr (Or.inr rfl))).1
  · exact ((startup_failure_spec _ _).2.2.1 rfl rfl rfl).1

/-- C8 counterexample: in the WinMain variants the failure of
SetConsoleCtrlHandler is fatal — with every other startup call
succeeding and a WM_QUIT queued, the process shows an error box and
returns EXIT_FAILURE without entering the loop, contradicting the
claim that no failure exit code is returned for this cause. -/
theorem ctrlHandler_failure_fatal_in_winMain :
    winMainEntry ⟨false, true, true, true⟩ [WinMsg.quit 0] =
      ⟨some EXIT_FAILURE, false, true, false⟩ := rfl

/-- C8 amended: in the console-entry variant (main), failure to
register the termination-signal handler is non-fatal — the warning is
logged and the run proceeds exactly as it would with a successful
registration; in the GUI-entry variants (WinMain), the same failure
aborts startup with an error box and EXIT_FAILURE before the loop. -/
theorem ctrlHandler_failure_spec (env : StartupEnv) (msgs : List WinMsg)
    (h : env.ctrlHandlerOk = false) :
    (mainEntry env msgs).ctrlWarningLogged = true ∧
    (mainEntry env msgs).exitCode =
      (mainEntry { env with ctrlHandlerOk := true } msgs).exitCode ∧
    (mainEntry env msgs).enteredLoop =
      (mainEntry { env with ctrlHandlerOk := true } msgs).enteredLoop ∧
    (mainEntry env msgs).errorBoxShown =
      (mainEntry { env with ctrlHandlerOk := true } msgs).errorBoxShown ∧
    (winMainEntry env msgs).exitCode = some EXIT_FAILURE ∧
    (winMainEntry env msgs).enteredLoop = false := by
  obtain ⟨ch, b, r, c⟩ := env
  simp only at h
  subst h
  cases b <;> cases r <;> cases c <;>
    simp [mainEntry, winMainEntry]

/-- Witness for the amended C8: handler registration fails, everything
else succeeds, WM_QUIT 3 queued — main still exits with code 3 after
entering the loop, WinMain aborts with EXIT_FAILURE. -/
theorem ctrlHandler_failure_spec_witness :
    (mainEntry ⟨false, true, true, true⟩ [WinMsg.quit 3]).ctrlWarningLogged = true ∧
    (winMainEntry ⟨false, true, true, true⟩ [WinMsg.quit 3]).exitCode =
      some EXIT_FAILURE := by
  have h := ctrlHandler_failure_spec ⟨false, true, true, true⟩ [WinMsg.quit 3] rfl
  exact ⟨h.1, h.2.2.2.2.1⟩

end ScreenLight

